import Mathlib

/-!
Verification development for the QuickBars Home Assistant integration
(`custom_components/quickbars`): shallow embeddings of the correlation-based
request/response bus operations (`client.py`), the presence tracker and the
notify/camera service helpers (`__init__.py`), and the pairing and options
flows (`config_flow.py`), together with theorems checking the behavioural
claims made about them.
-/

namespace QuickBars

/-! ## Python string / container helpers

Small helpers modelling Python idioms that appear throughout the source:
`x or default` on strings and lists (empty value counts as falsy), and
`dict.get` with a default. -/

/-- Python `s.strip()`: drop leading and trailing whitespace. Implemented
over the character list so that it evaluates inside the kernel. -/
def pyStrip (s : String) : String :=
  String.mk ((s.data.dropWhile Char.isWhitespace).reverse.dropWhile Char.isWhitespace).reverse

/-- Python `s.lower()` / `s.casefold()` for the ASCII names used here. -/
def pyLower (s : String) : String :=
  String.mk (s.data.map Char.toLower)

/-- Python `s.upper()` for the ASCII position names used here. -/
def pyUpper (s : String) : String :=
  String.mk (s.data.map Char.toUpper)

/-- Python `s or d` for strings: the empty string is falsy. -/
def strOr (s d : String) : String :=
  if s = "" then d else s

/-- Python `o.get(k) or d` for an optional string field. -/
def pyOr (o : Option String) (d : String) : String :=
  match o with
  | none => d
  | some s => if s = "" then d else s

/-- Python `list(o.get(k) or d)` for an optional list field: both a missing
key and an empty list fall back to the default. -/
def listOr {α : Type} (o : Option (List α)) (d : List α) : List α :=
  match o with
  | none => d
  | some l => if l.isEmpty then d else l

/-! ## Color normalization (`_svc_notify` in `__init__.py`, lines 289-303) -/

/-- Clamp a channel value to the byte range, from the inner `_clamp8` of
`_svc_notify`. -/
def clamp8 (x : Int) : Int :=
  if x < 0 then 0 else if x > 255 then 255 else x

/-- Lowercase hexadecimal digit character, as produced by Python `%x`
formatting (0-9 then a-f). -/
def hexDigitChar (n : Nat) : Char :=
  if n < 10 then Char.ofNat (48 + n) else Char.ofNat (87 + n)

/-- Two-digit lowercase hexadecimal rendering of a byte value, matching
Python `f"{r:02x}"` for `0 ≤ r ≤ 255`. -/
def toHex2 (n : Nat) : String :=
  String.mk [hexDigitChar (n / 16 % 16), hexDigitChar (n % 16)]

/-- Format three channel values as `#rrggbb` after clamping each to
`[0, 255]`, as `_svc_notify` does with `f"#{r:02x}{g:02x}{b:02x}"`. -/
def formatHex (r g b : Int) : String :=
  "#" ++ toHex2 (clamp8 r).toNat ++ toHex2 (clamp8 g).toNat ++ toHex2 (clamp8 b).toNat

/-- A raw Python value appearing as a color channel. The `notify` service is
registered without a validation schema (`__init__.py` line 396), so channel
values are arbitrary user data: `intLike` stands for a value `int()`
converts (an int, bool, float or numeric string), `nonIntLike` for a value
`int()` raises on, carrying its display text (e.g. the string `x`). -/
inductive PyVal
  | intLike (n : Int)
  | nonIntLike (s : String)
deriving DecidableEq

/-- Python `int(v)`: `none` models the raised `ValueError`/`TypeError`. -/
def pyInt : PyVal → Option Int
  | .intLike n => some n
  | .nonIntLike _ => none

/-- The shapes the `color` field of a notify service call can take: a
list/tuple of raw values, a mapping with optional `r`/`g`/`b` keys holding
raw values, a string, or anything else. -/
inductive ColorIn
  | rgbList (elems : List PyVal)
  | rgbMap (r g b : Option PyVal)
  | strVal (s : String)
  | otherVal
deriving DecidableEq

/-- What the color-normalization block of `_svc_notify` does: produce a
color field value (or none), or raise out of the service handler. -/
inductive ColorResult
  | raises (msg : String)
  | field (color : Option String)
deriving DecidableEq

/-- Color normalization from `_svc_notify` (`__init__.py` lines 292-303):
a 3-element list/tuple has each channel passed through `int()` — raising
`ValueError` if a channel is not coercible — then clamped and
hex-formatted; a mapping with all of `r`, `g`, `b` present likewise; a
string that is non-empty after `strip()` becomes its stripped value; every
other shape produces no color. -/
def normalize_color : ColorIn → ColorResult
  | .rgbList [r, g, b] =>
    match pyInt r, pyInt g, pyInt b with
    | some r', some g', some b' => .field (some (formatHex r' g' b'))
    | _, _, _ => .raises "ValueError"
  | .rgbList _ => .field none
  | .rgbMap (some r) (some g) (some b) =>
    match pyInt r, pyInt g, pyInt b with
    | some r', some g', some b' => .field (some (formatHex r' g' b'))
    | _, _, _ => .raises "ValueError"
  | .rgbMap _ _ _ => .field none
  | .strVal s => .field (if pyStrip s = "" then none else some (pyStrip s))
  | .otherVal => .field none

/-! ## Camera auto-hide (`CAMERA_SCHEMA` and `handle_camera` in `__init__.py`) -/

/-- The `auto_hide` rule of `CAMERA_SCHEMA` (`__init__.py` lines 70-71):
`vol.All(vol.Coerce(int), vol.Range(min=0, max=300))`. `vol.Range` raises
`Invalid` for out-of-range values, so the schema rejects them. -/
def camera_auto_hide_schema (x : Int) : Option Int :=
  if 0 ≤ x ∧ x ≤ 300 then some x else none

/-- The clamp inside `handle_camera` (`__init__.py` lines 267-272):
`0` means never auto-hide; a nonzero value below 5 is raised to 5. -/
def camera_auto_hide_handler (auto_hide : Int) : Int :=
  if auto_hide ≠ 0 ∧ auto_hide < 5 then 5 else auto_hide

/-- The value the `quickbars.open` event carries for `auto_hide` when the
camera service is called with `x`: schema validation followed by the
handler clamp; `none` means the service call is rejected by the schema. -/
def camera_auto_hide (x : Int) : Option Int :=
  (camera_auto_hide_schema x).map camera_auto_hide_handler

/-! ## Saved-entity normalization (`async_step_qb_manage`, `config_flow.py`
lines 700-707) -/

/-- The normalization loop of `async_step_qb_manage`: walk the requested ids
keeping those that are in `saved_ids` and not yet seen; `seen` is the
accumulator set. -/
def normalizeSaved (saved_ids : List String) : List String → List String → List String
  | [], _ => []
  | eid :: rest, seen =>
    if eid ∈ saved_ids ∧ eid ∉ seen then
      eid :: normalizeSaved saved_ids rest (eid :: seen)
    else
      normalizeSaved saved_ids rest seen

/-- Modelled from the spec sentence on normalization: remove duplicates
keeping the first occurrence, preserving order. Used as the specification
side of the refinement theorem for the loop above. -/
def dedupFirstSpec : List String → List String
  | [] => []
  | x :: xs => x :: dedupFirstSpec (xs.filter (fun y => y != x))
termination_by l => l.length
decreasing_by
  simp only [List.length_cons]
  exact Nat.lt_succ_of_le (List.length_filter_le _ _)

theorem normalizeSaved_eq_spec (saved_ids : List String) :
    ∀ (req seen : List String),
      normalizeSaved saved_ids req seen
        = dedupFirstSpec
            (req.filter (fun x => decide (x ∈ saved_ids) && decide (x ∉ seen)))
  | [], seen => by simp [normalizeSaved, dedupFirstSpec]
  | x :: rest, seen => by
    by_cases hx : x ∈ saved_ids ∧ x ∉ seen
    · rw [normalizeSaved, if_pos hx,
        List.filter_cons_of_pos (by simp [hx.1, hx.2]), dedupFirstSpec,
        normalizeSaved_eq_spec saved_ids rest (x :: seen), List.filter_filter]
      refine congrArg (fun l => x :: dedupFirstSpec l) ?_
      apply List.filter_congr
      intro y _
      by_cases hyx : y = x <;> by_cases hys : y ∈ seen <;>
        simp [hyx, hys, List.mem_cons]
    · rw [normalizeSaved, if_neg hx,
        List.filter_cons_of_neg (by
          rcases Decidable.not_and_iff_or_not.mp hx with h | h <;> simp [h]),
        normalizeSaved_eq_spec saved_ids rest seen]

/-- C9: quick-bar saved-entity normalization keeps only requested ids that
are in the saved set, removes duplicates keeping the first occurrence, and
preserves the requested order; in particular requested
`["b","a","b","c"]` against saved `{"a","b","c"}` gives `["b","a","c"]`. -/
theorem c9_saved_entity_normalization :
    (∀ (saved_ids req : List String),
        normalizeSaved saved_ids req []
          = dedupFirstSpec (req.filter (fun x => decide (x ∈ saved_ids))))
    ∧ normalizeSaved ["a", "b", "c"] ["b", "a", "b", "c"] [] = ["b", "a", "c"] := by
  constructor
  · intro saved_ids req
    rw [normalizeSaved_eq_spec saved_ids req []]
    congr 1
    apply List.filter_congr
    intro y _
    simp
  · decide

/-- C7 counterexample: the claim says a non-empty string color is passed
through unchanged, but `_svc_notify` assigns `col_in.strip()`, so the
string `" red"` comes back stripped to `"red"`, not unchanged; and the
claim says the normalization never raises, but the 3-element list
`["x","y","z"]` passes the shape check and `int("x")` raises `ValueError`
out of the schemaless service handler. -/
theorem c7_counterexample :
    normalize_color (ColorIn.strVal " red") = ColorResult.field (some "red")
      ∧ normalize_color (ColorIn.strVal " red") ≠ ColorResult.field (some " red")
      ∧ normalize_color (ColorIn.rgbList
          [PyVal.nonIntLike "x", PyVal.nonIntLike "y", PyVal.nonIntLike "z"])
        = ColorResult.raises "ValueError" := by
  refine ⟨by decide, by decide, by decide⟩

/-- C7 (amended): a 3-element triple or a complete r/g/b mapping whose
channels are all `int()`-coercible is clamped per channel to `[0,255]` and
formatted as `#` plus six lowercase hex digits (`(300,-5,128)` gives
`#ff0080`, the zero mapping gives `#000000`); a triple or complete mapping
with a non-coercible channel raises `ValueError` out of the schemaless
service handler; a string that is non-empty after trimming is passed
through trimmed; whitespace-only strings, lists of length other than 3,
mappings missing a channel, and any other shape yield no color field
without raising. -/
theorem c7_color_normalization (r g b : Int) (v : PyVal) (s : String) (l : List PyVal)
    (hs : pyStrip s ≠ "") (hl : l.length ≠ 3) (hv : pyInt v = none) :
    normalize_color (ColorIn.rgbList
        [PyVal.intLike 300, PyVal.intLike (-5), PyVal.intLike 128])
        = ColorResult.field (some "#ff0080")
      ∧ normalize_color (ColorIn.rgbMap
          (some (PyVal.intLike 0)) (some (PyVal.intLike 0)) (some (PyVal.intLike 0)))
        = ColorResult.field (some "#000000")
      ∧ normalize_color (ColorIn.rgbList
          [PyVal.intLike r, PyVal.intLike g, PyVal.intLike b])
        = ColorResult.field (some (formatHex r g b))
      ∧ normalize_color (ColorIn.rgbMap
          (some (PyVal.intLike r)) (some (PyVal.intLike g)) (some (PyVal.intLike b)))
        = ColorResult.field (some (formatHex r g b))
      ∧ 0 ≤ clamp8 r ∧ clamp8 r ≤ 255
      ∧ (formatHex r g b).length = 7
      ∧ (formatHex r g b).data.all (fun c => c ∈ "#0123456789abcdef".data)
      ∧ normalize_color (ColorIn.rgbList [v, PyVal.intLike g, PyVal.intLike b])
          = ColorResult.raises "ValueError"
      ∧ normalize_color (ColorIn.rgbMap
          (some v) (some (PyVal.intLike g)) (some (PyVal.intLike b)))
          = ColorResult.raises "ValueError"
      ∧ normalize_color (ColorIn.strVal s) = ColorResult.field (some (pyStrip s))
      ∧ normalize_color (ColorIn.strVal "   ") = ColorResult.field none
      ∧ normalize_color (ColorIn.rgbList l) = ColorResult.field none
      ∧ normalize_color (ColorIn.rgbMap none (some (PyVal.intLike g)) (some (PyVal.intLike b)))
          = ColorResult.field none
      ∧ normalize_color ColorIn.otherVal = ColorResult.field none := by
  refine ⟨by decide, by decide, rfl, rfl, ?_, ?_, ?_, ?_, ?_, ?_, ?_, by decide, ?_, rfl, rfl⟩
  · unfold clamp8; split <;> [omega; split <;> omega]
  · unfold clamp8; split <;> [omega; split <;> omega]
  · simp [formatHex, toHex2, String.length_append]
    rfl
  · have hmem : ∀ n : Nat, n < 16 → hexDigitChar n ∈ "#0123456789abcdef".data := by
      intro n hn
      interval_cases n <;> decide
    have hdig : ∀ m : Nat, (toHex2 m).data.all (fun c => c ∈ "#0123456789abcdef".data) = true := by
      intro m
      simp only [toHex2, String.mk, List.all_cons, List.all_nil, Bool.and_true]
      rw [Bool.and_eq_true]
      constructor
      · exact decide_eq_true (hmem _ (Nat.mod_lt _ (by omega)))
      · exact decide_eq_true (hmem _ (Nat.mod_lt _ (by omega)))
    simp only [formatHex, String.data_append, List.all_append]
    rw [Bool.and_eq_true, Bool.and_eq_true, Bool.and_eq_true]
    exact ⟨⟨⟨by decide, by simpa using hdig (clamp8 r).toNat⟩,
      by simpa using hdig (clamp8 g).toNat⟩, by simpa using hdig (clamp8 b).toNat⟩
  · simp only [normalize_color, hv]
  · simp only [normalize_color, hv]
  · simp only [normalize_color, if_neg hs]
  · rcases l with _ | ⟨a, _ | ⟨c, _ | ⟨d, _ | ⟨e, rest⟩⟩⟩⟩
    · rfl
    · rfl
    · rfl
    · exact absurd rfl hl
    · rfl

/-- C7 amended-theorem witness at concrete inputs, including a raising
channel value. -/
theorem c7_color_normalization_witness :
    (pyStrip " red" ≠ ""
        ∧ ([PyVal.intLike 1, PyVal.intLike 2] : List PyVal).length ≠ 3
        ∧ pyInt (PyVal.nonIntLike "x") = none)
      ∧ (normalize_color (ColorIn.rgbList
            [PyVal.intLike 300, PyVal.intLike (-5), PyVal.intLike 128])
            = ColorResult.field (some "#ff0080")
          ∧ normalize_color (ColorIn.rgbMap
              (some (PyVal.intLike 0)) (some (PyVal.intLike 0)) (some (PyVal.intLike 0)))
            = ColorResult.field (some "#000000")
          ∧ normalize_color (ColorIn.rgbList
              [PyVal.intLike 300, PyVal.intLike (-5), PyVal.intLike 128])
            = ColorResult.field (some (formatHex 300 (-5) 128))
          ∧ normalize_color (ColorIn.rgbMap
              (some (PyVal.intLike 300)) (some (PyVal.intLike (-5))) (some (PyVal.intLike 128)))
            = ColorResult.field (some (formatHex 300 (-5) 128))
          ∧ 0 ≤ clamp8 300 ∧ clamp8 300 ≤ 255
          ∧ (formatHex 300 (-5) 128).length = 7
          ∧ (formatHex 300 (-5) 128).data.all (fun c => c ∈ "#0123456789abcdef".data)
          ∧ normalize_color (ColorIn.rgbList
              [PyVal.nonIntLike "x", PyVal.intLike (-5), PyVal.intLike 128])
            = ColorResult.raises "ValueError"
          ∧ normalize_color (ColorIn.rgbMap
              (some (PyVal.nonIntLike "x")) (some (PyVal.intLike (-5))) (some (PyVal.intLike 128)))
            = ColorResult.raises "ValueError"
          ∧ normalize_color (ColorIn.strVal " red") = ColorResult.field (some (pyStrip " red"))
          ∧ normalize_color (ColorIn.strVal "   ") = ColorResult.field none
          ∧ normalize_color (ColorIn.rgbList [PyVal.intLike 1, PyVal.intLike 2])
            = ColorResult.field none
          ∧ normalize_color (ColorIn.rgbMap none (some (PyVal.intLike (-5)))
              (some (PyVal.intLike 128))) = ColorResult.field none
          ∧ normalize_color ColorIn.otherVal = ColorResult.field none) :=
  ⟨⟨by decide, by decide, by decide⟩,
    c7_color_normalization 300 (-5) 128 (PyVal.nonIntLike "x") " red"
      [PyVal.intLike 1, PyVal.intLike 2] (by decide) (by decide) (by decide)⟩

/-- C8 counterexample: the claim says auto-hide input `301` is clamped to
`300` and never rejected, but `CAMERA_SCHEMA` validates `auto_hide` with
`vol.Range(min=0, max=300)`, which rejects `301` outright. -/
theorem c8_counterexample :
    camera_auto_hide 301 = none ∧ camera_auto_hide 301 ≠ some 300 := by
  constructor <;> decide

/-- C8 (amended): auto-hide input `0` stays `0`; a nonzero input below `5`
that passes the schema range `[0, 300]` is clamped up to `5` (so `3` becomes
`5`); inputs outside `[0, 300]` are rejected by the schema's range
validator rather than clamped; in-range inputs of at least `5` are kept. -/
theorem c8_auto_hide_clamping (x y z : Int)
    (hx : 0 ≤ x ∧ x ≤ 300 ∧ x ≠ 0 ∧ x < 5)
    (hy : y < 0 ∨ 300 < y)
    (hz : 5 ≤ z ∧ z ≤ 300) :
    camera_auto_hide 0 = some 0
      ∧ camera_auto_hide 3 = some 5
      ∧ camera_auto_hide x = some 5
      ∧ camera_auto_hide y = none
      ∧ camera_auto_hide z = some z := by
  obtain ⟨hx0, hx300, hxne, hx5⟩ := hx
  obtain ⟨hz5, hz300⟩ := hz
  refine ⟨by decide, by decide, ?_, ?_, ?_⟩
  · unfold camera_auto_hide camera_auto_hide_schema camera_auto_hide_handler
    rw [if_pos ⟨hx0, hx300⟩, Option.map_some', if_pos ⟨hxne, hx5⟩]
  · unfold camera_auto_hide camera_auto_hide_schema
    rw [if_neg (by omega)]
    rfl
  · unfold camera_auto_hide camera_auto_hide_schema camera_auto_hide_handler
    rw [if_pos ⟨by omega, hz300⟩, Option.map_some', if_neg (by omega)]

/-- C8 amended-theorem witness at concrete inputs. -/
theorem c8_auto_hide_clamping_witness :
    ((0 ≤ (3 : Int) ∧ (3 : Int) ≤ 300 ∧ (3 : Int) ≠ 0 ∧ (3 : Int) < 5)
        ∧ ((301 : Int) < 0 ∨ (300 : Int) < 301)
        ∧ (5 ≤ (30 : Int) ∧ (30 : Int) ≤ 300))
      ∧ (camera_auto_hide 0 = some 0
          ∧ camera_auto_hide 3 = some 5
          ∧ camera_auto_hide 3 = some 5
          ∧ camera_auto_hide 301 = none
          ∧ camera_auto_hide 30 = some 30) :=
  ⟨⟨by decide, by decide, by decide⟩,
    c8_auto_hide_clamping 3 301 30 (by decide) (by decide) (by decide)⟩

/-! ## Correlation bridge (`client.py`)

Each bus request helper (`ws_ping`, `ws_get_snapshot`, `ws_entities_replace`,
`ws_entities_update`, `ws_put_snapshot`, `ws_notify`) registers a response
listener, fires a request event, awaits the future with a timeout, and
unregisters the listener in a `finally` block. Response events are modelled
by `EventData`; the future by an `Option`; the payload type is a parameter
since the bridge passes payloads through opaquely. -/

/-- The data of a `quickbars_config_response` bus event as read by the
callbacks: `data.get("cid")`, `data.get("id")`, `data.get("ok")`,
`data.get("payload")`. -/
structure EventData (π : Type) where
  cid : Option String := none
  id : Option String := none
  ok : Option Bool := none
  payload : Option π := none

/-- The `_cb` listener of `ws_get_snapshot` (`client.py` lines 142-148): a
response whose `cid` or `id` does not match is ignored; otherwise the first
matching response fills the future with the full event data. -/
def get_snapshot_cb {π : Type} (cid exp_id : String)
    (fut : Option (EventData π)) (ev : EventData π) : Option (EventData π) :=
  if ev.cid ≠ some cid ∨ ev.id ≠ some exp_id then fut
  else match fut with
  | some r => some r
  | none => some ev

/-- The `_cb` listener of `ws_entities_replace` (`client.py` lines 174-179). -/
def entities_replace_cb {π : Type} (cid exp_id : String)
    (fut : Option (EventData π)) (ev : EventData π) : Option (EventData π) :=
  if ev.cid ≠ some cid ∨ ev.id ≠ some exp_id then fut
  else match fut with
  | some r => some r
  | none => some ev

/-- The `_cb` listener of `ws_entities_update` (`client.py` lines 210-215). -/
def entities_update_cb {π : Type} (cid exp_id : String)
    (fut : Option (EventData π)) (ev : EventData π) : Option (EventData π) :=
  if ev.cid ≠ some cid ∨ ev.id ≠ some exp_id then fut
  else match fut with
  | some r => some r
  | none => some ev

/-- The `_cb` listener of `ws_put_snapshot` (`client.py` lines 245-250). -/
def put_snapshot_cb {π : Type} (cid exp_id : String)
    (fut : Option (EventData π)) (ev : EventData π) : Option (EventData π) :=
  if ev.cid ≠ some cid ∨ ev.id ≠ some exp_id then fut
  else match fut with
  | some r => some r
  | none => some ev

/-- The `_cb` listener of `ws_ping` (`client.py` lines 276-283): only a
response matching both `cid` and `id` fills the future, with
`bool(data.get("ok", False))`. -/
def ping_cb {π : Type} (cid exp_id : String)
    (fut : Option Bool) (ev : EventData π) : Option Bool :=
  if ev.cid ≠ some cid ∨ ev.id ≠ some exp_id then fut
  else match fut with
  | some r => some r
  | none => some (ev.ok.getD false)

/-- The `_cb` listener of `ws_notify` (`client.py` lines 302-308). -/
def notify_cb {π : Type} (cid exp_id : String)
    (fut : Option Bool) (ev : EventData π) : Option Bool :=
  if ev.cid ≠ some cid ∨ ev.id ≠ some exp_id then fut
  else match fut with
  | some r => some r
  | none => some (ev.ok.getD false)

/-- Observable bus effects of one request helper, in execution order. -/
inductive Eff
  | register
  | fire (id action cid : String)
  | unsub
deriving DecidableEq

/-- What `await asyncio.wait_for(fut, timeout)` can do: return a resolved
value, raise `TimeoutError`, or be cancelled from outside. -/
inductive AwaitOutcome (α : Type)
  | success (v : α)
  | timedOut
  | cancelled

/-- The result of one request helper as seen by its caller. -/
inductive OpResult (α : Type)
  | ok (v : α)
  | timeout
  | remoteError
  | cancelled
deriving DecidableEq

/-- Python `await asyncio.wait_for(fut, timeout)` on a single-assignment
future: a filled future is returned, an empty one times out. -/
def awaitFuture {α : Type} (fut : Option α) : AwaitOutcome α :=
  match fut with
  | some v => .success v
  | none => .timedOut

/-- Execution of `ws_ping` (`client.py` lines 270-291): register the
listener, fire the `ping` request inside `try`, await the future, and
unregister in `finally` on every exit path. Returns the caller-visible
result, the listener count after the call (starting from `listeners`), and
the effect trace. -/
def ws_ping_run (cid exp_id : String) (outcome : AwaitOutcome Bool)
    (listeners : Nat) : OpResult Bool × Nat × List Eff :=
  let registered := listeners + 1
  let res : OpResult Bool :=
    match outcome with
    | .success v => .ok v
    | .timedOut => .timeout
    | .cancelled => .cancelled
  (res, registered - 1, [Eff.register, Eff.fire exp_id "ping" cid, Eff.unsub])

/-- Execution of `ws_notify` (`client.py` lines 295-316), identical plumbing
with action `notify`. -/
def ws_notify_run (cid exp_id : String) (outcome : AwaitOutcome Bool)
    (listeners : Nat) : OpResult Bool × Nat × List Eff :=
  let registered := listeners + 1
  let res : OpResult Bool :=
    match outcome with
    | .success v => .ok v
    | .timedOut => .timeout
    | .cancelled => .cancelled
  (res, registered - 1, [Eff.register, Eff.fire exp_id "notify" cid, Eff.unsub])

/-- Execution of `ws_get_snapshot` (`client.py` lines 136-159): after the
await, `if not res.get("ok")` raises a remote error, otherwise
`res.get("payload") or {}` is returned (`empty` models `{}`). -/
def ws_get_snapshot_run {π : Type} (empty : π) (cid exp_id : String)
    (outcome : AwaitOutcome (EventData π)) (listeners : Nat) :
    OpResult π × Nat × List Eff :=
  let registered := listeners + 1
  let res : OpResult π :=
    match outcome with
    | .success r => if r.ok.getD false then .ok (r.payload.getD empty) else .remoteError
    | .timedOut => .timeout
    | .cancelled => .cancelled
  (res, registered - 1, [Eff.register, Eff.fire exp_id "get_snapshot" cid, Eff.unsub])

/-- Execution of `ws_entities_replace` (`client.py` lines 162-198). -/
def ws_entities_replace_run {π : Type} (empty : π) (cid exp_id : String)
    (outcome : AwaitOutcome (EventData π)) (listeners : Nat) :
    OpResult π × Nat × List Eff :=
  let registered := listeners + 1
  let res : OpResult π :=
    match outcome with
    | .success r => if r.ok.getD false then .ok (r.payload.getD empty) else .remoteError
    | .timedOut => .timeout
    | .cancelled => .cancelled
  (res, registered - 1, [Eff.register, Eff.fire exp_id "entities_replace" cid, Eff.unsub])

/-- Execution of `ws_entities_update` (`client.py` lines 200-233). -/
def ws_entities_update_run {π : Type} (empty : π) (cid exp_id : String)
    (outcome : AwaitOutcome (EventData π)) (listeners : Nat) :
    OpResult π × Nat × List Eff :=
  let registered := listeners + 1
  let res : OpResult π :=
    match outcome with
    | .success r => if r.ok.getD false then .ok (r.payload.getD empty) else .remoteError
    | .timedOut => .timeout
    | .cancelled => .cancelled
  (res, registered - 1, [Eff.register, Eff.fire exp_id "entities_update" cid, Eff.unsub])

/-- Execution of `ws_put_snapshot` (`client.py` lines 235-267): checks the
`ok` flag but returns nothing on success. -/
def ws_put_snapshot_run {π : Type} (cid exp_id : String)
    (outcome : AwaitOutcome (EventData π)) (listeners : Nat) :
    OpResult Unit × Nat × List Eff :=
  let registered := listeners + 1
  let res : OpResult Unit :=
    match outcome with
    | .success r => if r.ok.getD false then .ok () else .remoteError
    | .timedOut => .timeout
    | .cancelled => .cancelled
  (res, registered - 1, [Eff.register, Eff.fire exp_id "put_snapshot" cid, Eff.unsub])

/-- Fire-and-forget notify, `ws_notify_fire` (`client.py` lines 318-324):
`cid = cid or secrets.token_urlsafe(8)` keeps a supplied non-empty
correlation id verbatim and generates a fresh token (`token`) only when the
argument is `None` or empty; returns the id used and the fired event. -/
def ws_notify_fire (exp_id : String) (cid_arg : Option String) (token : String) :
    String × List Eff :=
  let cid := match cid_arg with
    | some s => if s = "" then token else s
    | none => token
  (cid, [Eff.fire exp_id "notify" cid])

/-- Correlation id chosen by the `notify` service handler `_svc_notify`
(`__init__.py` line 378): `cid = call.data.get("cid") or
secrets.token_urlsafe(8)`; this id is placed in the `quickbars.notify`
payload and in the `quickbars.notification_sent` event. -/
def svc_notify_cid (data_cid : Option String) (token : String) : String :=
  match data_cid with
  | some s => if s = "" then token else s
  | none => token

theorem ping_cb_miss {π : Type} (cid exp_id : String) (fut : Option Bool)
    (ev : EventData π) (h : ev.cid ≠ some cid ∨ ev.id ≠ some exp_id) :
    ping_cb cid exp_id fut ev = fut := by
  unfold ping_cb
  rw [if_pos h]

theorem notify_cb_miss {π : Type} (cid exp_id : String) (fut : Option Bool)
    (ev : EventData π) (h : ev.cid ≠ some cid ∨ ev.id ≠ some exp_id) :
    notify_cb cid exp_id fut ev = fut := by
  unfold notify_cb
  rw [if_pos h]

theorem get_snapshot_cb_miss {π : Type} (cid exp_id : String)
    (fut : Option (EventData π)) (ev : EventData π)
    (h : ev.cid ≠ some cid ∨ ev.id ≠ some exp_id) :
    get_snapshot_cb cid exp_id fut ev = fut := by
  unfold get_snapshot_cb
  rw [if_pos h]

theorem entities_replace_cb_miss {π : Type} (cid exp_id : String)
    (fut : Option (EventData π)) (ev : EventData π)
    (h : ev.cid ≠ some cid ∨ ev.id ≠ some exp_id) :
    entities_replace_cb cid exp_id fut ev = fut := by
  unfold entities_replace_cb
  rw [if_pos h]

theorem entities_update_cb_miss {π : Type} (cid exp_id : String)
    (fut : Option (EventData π)) (ev : EventData π)
    (h : ev.cid ≠ some cid ∨ ev.id ≠ some exp_id) :
    entities_update_cb cid exp_id fut ev = fut := by
  unfold entities_update_cb
  rw [if_pos h]

theorem put_snapshot_cb_miss {π : Type} (cid exp_id : String)
    (fut : Option (EventData π)) (ev : EventData π)
    (h : ev.cid ≠ some cid ∨ ev.id ≠ some exp_id) :
    put_snapshot_cb cid exp_id fut ev = fut := by
  unfold put_snapshot_cb
  rw [if_pos h]

theorem foldl_fix {α β : Type} (f : β → α → β) (l : List α) (b : β)
    (h : ∀ x ∈ l, ∀ acc, f acc x = acc) : l.foldl f b = b := by
  induction l generalizing b with
  | nil => rfl
  | cons a l ih =>
    rw [List.foldl_cons, h a (List.mem_cons_self a l)]
    exact ih b fun x hx acc => h x (List.mem_cons_of_mem _ hx) acc

/-- C1: for every bus request callback, a response event whose `cid` and
`id` do not both match leaves the pending future exactly as it was (so only
a response matching both can resolve it); consequently, for two concurrent
requests to the same identity with distinct tokens `cid` and `cid2`, a
response carrying `cid2` never resolves the future guarded by `cid`. -/
theorem c1_response_matching {π : Type} (cid cid2 exp_id : String)
    (futb : Option Bool) (futd : Option (EventData π)) (ev ev2 : EventData π)
    (h : ev.cid ≠ some cid ∨ ev.id ≠ some exp_id)
    (h2 : cid2 ≠ cid) (hev2 : ev2.cid = some cid2) :
    (ping_cb cid exp_id futb ev = futb
      ∧ notify_cb cid exp_id futb ev = futb
      ∧ get_snapshot_cb cid exp_id futd ev = futd
      ∧ entities_replace_cb cid exp_id futd ev = futd
      ∧ entities_update_cb cid exp_id futd ev = futd
      ∧ put_snapshot_cb cid exp_id futd ev = futd)
    ∧ (ping_cb cid exp_id futb ev2 = futb
      ∧ notify_cb cid exp_id futb ev2 = futb
      ∧ get_snapshot_cb cid exp_id futd ev2 = futd
      ∧ entities_replace_cb cid exp_id futd ev2 = futd
      ∧ entities_update_cb cid exp_id futd ev2 = futd
      ∧ put_snapshot_cb cid exp_id futd ev2 = futd) := by
  have h' : ev2.cid ≠ some cid ∨ ev2.id ≠ some exp_id := by
    left
    rw [hev2]
    intro hc
    exact h2 (Option.some_injective _ hc)
  exact ⟨⟨ping_cb_miss _ _ _ _ h, notify_cb_miss _ _ _ _ h,
      get_snapshot_cb_miss _ _ _ _ h, entities_replace_cb_miss _ _ _ _ h,
      entities_update_cb_miss _ _ _ _ h, put_snapshot_cb_miss _ _ _ _ h⟩,
    ⟨ping_cb_miss _ _ _ _ h', notify_cb_miss _ _ _ _ h',
      get_snapshot_cb_miss _ _ _ _ h', entities_replace_cb_miss _ _ _ _ h',
      entities_update_cb_miss _ _ _ _ h', put_snapshot_cb_miss _ _ _ _ h'⟩⟩

/-- C1 witness: a pending future, a response with the wrong token, and a
response carrying a different request's token all leave it pending. -/
theorem c1_response_matching_witness :
    ((({} : EventData Unit).cid ≠ some "c1" ∨ ({} : EventData Unit).id ≠ some "d")
      ∧ "c2" ≠ "c1"
      ∧ ({ cid := some "c2" } : EventData Unit).cid = some "c2")
    ∧ ((ping_cb "c1" "d" none ({} : EventData Unit) = none
        ∧ notify_cb "c1" "d" none ({} : EventData Unit) = none
        ∧ get_snapshot_cb "c1" "d" none ({} : EventData Unit) = none
        ∧ entities_replace_cb "c1" "d" none ({} : EventData Unit) = none
        ∧ entities_update_cb "c1" "d" none ({} : EventData Unit) = none
        ∧ put_snapshot_cb "c1" "d" none ({} : EventData Unit) = none)
      ∧ (ping_cb "c1" "d" none ({ cid := some "c2" } : EventData Unit) = none
        ∧ notify_cb "c1" "d" none ({ cid := some "c2" } : EventData Unit) = none
        ∧ get_snapshot_cb "c1" "d" none ({ cid := some "c2" } : EventData Unit) = none
        ∧ entities_replace_cb "c1" "d" none ({ cid := some "c2" } : EventData Unit) = none
        ∧ entities_update_cb "c1" "d" none ({ cid := some "c2" } : EventData Unit) = none
        ∧ put_snapshot_cb "c1" "d" none ({ cid := some "c2" } : EventData Unit) = none)) :=
  ⟨⟨by decide, by decide, rfl⟩,
    c1_response_matching "c1" "c2" "d" none none {} { cid := some "c2" }
      (by decide) (by decide) rfl⟩

/-- C2: for every bus request operation, if no event delivered before the
deadline matches both `cid` and `id`, the future stays empty and the call
fails with a timeout; and on every exit path (success, remote failure,
timeout, cancellation) the listener count after the call equals the count
before it, because `unsub()` runs in the `finally` block. -/
theorem c2_timeout_and_listener_cleanup {π : Type} (empty : π) (cid exp_id : String)
    (events : List (EventData π)) (n : Nat)
    (ob : AwaitOutcome Bool) (od : AwaitOutcome (EventData π))
    (hmiss : ∀ ev ∈ events, ev.cid ≠ some cid ∨ ev.id ≠ some exp_id) :
    ((ws_ping_run cid exp_id ob n).2.1 = n
      ∧ (ws_notify_run cid exp_id ob n).2.1 = n
      ∧ (ws_get_snapshot_run empty cid exp_id od n).2.1 = n
      ∧ (ws_entities_replace_run empty cid exp_id od n).2.1 = n
      ∧ (ws_entities_update_run empty cid exp_id od n).2.1 = n
      ∧ (ws_put_snapshot_run cid exp_id od n).2.1 = n)
    ∧ ((ws_ping_run cid exp_id
          (awaitFuture (events.foldl (ping_cb cid exp_id) none)) n).1 = .timeout
      ∧ (ws_notify_run cid exp_id
          (awaitFuture (events.foldl (notify_cb cid exp_id) none)) n).1 = .timeout
      ∧ (ws_get_snapshot_run empty cid exp_id
          (awaitFuture (events.foldl (get_snapshot_cb cid exp_id) none)) n).1 = .timeout
      ∧ (ws_entities_replace_run empty cid exp_id
          (awaitFuture (events.foldl (entities_replace_cb cid exp_id) none)) n).1 = .timeout
      ∧ (ws_entities_update_run empty cid exp_id
          (awaitFuture (events.foldl (entities_update_cb cid exp_id) none)) n).1 = .timeout
      ∧ (ws_put_snapshot_run cid exp_id
          (awaitFuture (events.foldl (put_snapshot_cb cid exp_id) none)) n).1 = .timeout) := by
  refine ⟨⟨rfl, rfl, rfl, rfl, rfl, rfl⟩, ?_, ?_, ?_, ?_, ?_, ?_⟩
  · rw [foldl_fix _ _ _ fun ev hev acc => ping_cb_miss cid exp_id acc ev (hmiss ev hev)]
    rfl
  · rw [foldl_fix _ _ _ fun ev hev acc => notify_cb_miss cid exp_id acc ev (hmiss ev hev)]
    rfl
  · rw [foldl_fix _ _ _ fun ev hev acc => get_snapshot_cb_miss cid exp_id acc ev (hmiss ev hev)]
    rfl
  · rw [foldl_fix _ _ _ fun ev hev acc => entities_replace_cb_miss cid exp_id acc ev (hmiss ev hev)]
    rfl
  · rw [foldl_fix _ _ _ fun ev hev acc => entities_update_cb_miss cid exp_id acc ev (hmiss ev hev)]
    rfl
  · rw [foldl_fix _ _ _ fun ev hev acc => put_snapshot_cb_miss cid exp_id acc ev (hmiss ev hev)]
    rfl

/-- C2 witness: one unmatched response delivered to each pending operation,
with the awaiting side cancelled in the cleanup conjunct. -/
theorem c2_timeout_and_listener_cleanup_witness :
    (∀ ev ∈ [({ cid := some "other" } : EventData Unit)],
        ev.cid ≠ some "c1" ∨ ev.id ≠ some "d")
    ∧ (((ws_ping_run "c1" "d" AwaitOutcome.cancelled 3).2.1 = 3
        ∧ (ws_notify_run "c1" "d" AwaitOutcome.cancelled 3).2.1 = 3
        ∧ (ws_get_snapshot_run () "c1" "d" AwaitOutcome.cancelled 3).2.1 = 3
        ∧ (ws_entities_replace_run () "c1" "d" AwaitOutcome.cancelled 3).2.1 = 3
        ∧ (ws_entities_update_run () "c1" "d" AwaitOutcome.cancelled 3).2.1 = 3
        ∧ (ws_put_snapshot_run "c1" "d"
            (AwaitOutcome.cancelled : AwaitOutcome (EventData Unit)) 3).2.1 = 3)
      ∧ ((ws_ping_run "c1" "d"
            (awaitFuture ([({ cid := some "other" } : EventData Unit)].foldl
              (ping_cb "c1" "d") none)) 3).1 = .timeout
        ∧ (ws_notify_run "c1" "d"
            (awaitFuture ([({ cid := some "other" } : EventData Unit)].foldl
              (notify_cb "c1" "d") none)) 3).1 = .timeout
        ∧ (ws_get_snapshot_run () "c1" "d"
            (awaitFuture ([({ cid := some "other" } : EventData Unit)].foldl
              (get_snapshot_cb "c1" "d") none)) 3).1 = .timeout
        ∧ (ws_entities_replace_run () "c1" "d"
            (awaitFuture ([({ cid := some "other" } : EventData Unit)].foldl
              (entities_replace_cb "c1" "d") none)) 3).1 = .timeout
        ∧ (ws_entities_update_run () "c1" "d"
            (awaitFuture ([({ cid := some "other" } : EventData Unit)].foldl
              (entities_update_cb "c1" "d") none)) 3).1 = .timeout
        ∧ (ws_put_snapshot_run "c1" "d"
            (awaitFuture ([({ cid := some "other" } : EventData Unit)].foldl
              (put_snapshot_cb "c1" "d") none)) 3).1 = .timeout)) :=
  ⟨by decide,
    c2_timeout_and_listener_cleanup () "c1" "d"
      [{ cid := some "other" }] 3 AwaitOutcome.cancelled AwaitOutcome.cancelled
      (by decide)⟩

/-- C3: in every bus request operation the `register` effect occurs strictly
before the `fire` effect in the execution trace, whatever the outcome of the
await: the listener exists before the request event is published. -/
theorem c3_register_before_fire {π : Type} (empty : π) (cid exp_id : String)
    (n : Nat) (ob : AwaitOutcome Bool) (od : AwaitOutcome (EventData π)) :
    (Eff.fire exp_id "ping" cid ∈ (ws_ping_run cid exp_id ob n).2.2
      ∧ (ws_ping_run cid exp_id ob n).2.2.indexOf Eff.register
        < (ws_ping_run cid exp_id ob n).2.2.indexOf (Eff.fire exp_id "ping" cid))
    ∧ (Eff.fire exp_id "notify" cid ∈ (ws_notify_run cid exp_id ob n).2.2
      ∧ (ws_notify_run cid exp_id ob n).2.2.indexOf Eff.register
        < (ws_notify_run cid exp_id ob n).2.2.indexOf (Eff.fire exp_id "notify" cid))
    ∧ (Eff.fire exp_id "get_snapshot" cid ∈ (ws_get_snapshot_run empty cid exp_id od n).2.2
      ∧ (ws_get_snapshot_run empty cid exp_id od n).2.2.indexOf Eff.register
        < (ws_get_snapshot_run empty cid exp_id od n).2.2.indexOf
            (Eff.fire exp_id "get_snapshot" cid))
    ∧ (Eff.fire exp_id "entities_replace" cid ∈ (ws_entities_replace_run empty cid exp_id od n).2.2
      ∧ (ws_entities_replace_run empty cid exp_id od n).2.2.indexOf Eff.register
        < (ws_entities_replace_run empty cid exp_id od n).2.2.indexOf
            (Eff.fire exp_id "entities_replace" cid))
    ∧ (Eff.fire exp_id "entities_update" cid ∈ (ws_entities_update_run empty cid exp_id od n).2.2
      ∧ (ws_entities_update_run empty cid exp_id od n).2.2.indexOf Eff.register
        < (ws_entities_update_run empty cid exp_id od n).2.2.indexOf
            (Eff.fire exp_id "entities_update" cid))
    ∧ (Eff.fire exp_id "put_snapshot" cid ∈ (ws_put_snapshot_run cid exp_id od n).2.2
      ∧ (ws_put_snapshot_run cid exp_id od n).2.2.indexOf Eff.register
        < (ws_put_snapshot_run cid exp_id od n).2.2.indexOf
            (Eff.fire exp_id "put_snapshot" cid)) := by
  refine ⟨⟨?_, ?_⟩, ⟨?_, ?_⟩, ⟨?_, ?_⟩, ⟨?_, ?_⟩, ⟨?_, ?_⟩, ⟨?_, ?_⟩⟩ <;>
    simp [ws_ping_run, ws_notify_run, ws_get_snapshot_run, ws_entities_replace_run,
      ws_entities_update_run, ws_put_snapshot_run,
      List.indexOf_cons_self, List.indexOf_cons_ne]

/-- C10: when the caller of the fire-and-forget notify supplies a non-empty
correlation id (argument of `ws_notify_fire`, or `cid` in the notify service
call data), that id is used verbatim in the published request event and
returned; a fresh random token is used only when none is supplied. -/
theorem c10_fire_and_forget_cid (exp_id c token : String) (hc : c ≠ "") :
    ((ws_notify_fire exp_id (some c) token).1 = c
      ∧ (ws_notify_fire exp_id (some c) token).2 = [Eff.fire exp_id "notify" c]
      ∧ svc_notify_cid (some c) token = c)
    ∧ ((ws_notify_fire exp_id none token).1 = token
      ∧ (ws_notify_fire exp_id none token).2 = [Eff.fire exp_id "notify" token]
      ∧ svc_notify_cid none token = token) := by
  refine ⟨⟨?_, ?_, ?_⟩, rfl, rfl, rfl⟩ <;>
    simp [ws_notify_fire, svc_notify_cid, hc]

/-- C10 witness: a caller-supplied id `reuse-me` is used verbatim however
the random token comes out. -/
theorem c10_fire_and_forget_cid_witness :
    ("reuse-me" ≠ ""
      ∧ (((ws_notify_fire "d" (some "reuse-me") "tok").1 = "reuse-me"
          ∧ (ws_notify_fire "d" (some "reuse-me") "tok").2
              = [Eff.fire "d" "notify" "reuse-me"]
          ∧ svc_notify_cid (some "reuse-me") "tok" = "reuse-me")
        ∧ ((ws_notify_fire "d" none "tok").1 = "tok"
          ∧ (ws_notify_fire "d" none "tok").2 = [Eff.fire "d" "notify" "tok"]
          ∧ svc_notify_cid none "tok" = "tok"))) :=
  ⟨by decide, c10_fire_and_forget_cid "d" "reuse-me" "tok" (by decide)⟩

/-! ## Presence tracker (`_Presence._handle_change`, `__init__.py` lines 133-168) -/

/-- The zeroconf service type the integration watches. -/
def SERVICE_TYPE : String := "_quickbars._tcp.local."

/-- The parts of `entry.data` the presence tracker reads and writes. -/
structure PEntryData where
  id : Option String := none
  host : Option String := none
  port : Option Nat := none
deriving DecidableEq

/-- Resolved zeroconf service info: `parsed_addresses()`, `port`, and the
decoded TXT property bag. -/
structure PServiceInfo where
  addresses : List String := []
  port : Option Nat := none
  props : List (String × String) := []
deriving DecidableEq

/-- Python `props.get(k)` on the decoded TXT property bag. -/
def lookupProp (props : List (String × String)) (k : String) : Option String :=
  (props.find? (fun kv => kv.1 == k)).map (fun kv => kv.2)

/-- One `_handle_change` invocation: given the stored entry data, the event's
service type, whether it is a removal, and the resolved service info (`none`
when resolution failed), return the entry data afterwards and whether a
connectivity re-check was scheduled. Mirrors `__init__.py` lines 133-168:
wrong service type, removals, failed resolution, and an empty or
non-matching TXT `id` (compared stripped and lowercased) are ignored; a
matching id with a truthy resolved host and port updates the entry only if
host or port differs, scheduling a coordinator refresh. -/
def handle_change (entry : PEntryData) (service_type : String) (removed : Bool)
    (info : Option PServiceInfo) : PEntryData × Bool :=
  if service_type ≠ SERVICE_TYPE then (entry, false)
  else
    let wanted_id := pyLower (pyStrip (entry.id.getD ""))
    if removed then (entry, false)
    else match info with
    | none => (entry, false)
    | some i =>
      let found_id := pyLower (pyStrip ((lookupProp i.props "id").getD ""))
      if found_id = "" ∨ found_id ≠ wanted_id then (entry, false)
      else
        let host : Option String := match i.addresses with
          | [] => entry.host
          | a :: _ => some a
        let port : Option Nat := match i.port with
          | some p => if p ≠ 0 then some p else entry.port
          | none => entry.port
        match host, port with
        | some h, some p =>
          if h ≠ "" ∧ p ≠ 0 ∧ (entry.host ≠ some h ∨ entry.port ≠ some p) then
            ({ entry with host := some h, port := some p }, true)
          else (entry, false)
        | some _, none => (entry, false)
        | none, _ => (entry, false)

/-- C5: a discovery change event whose declared TXT identity is empty or
differs from the watched identity has no effect; a matching identity whose
resolved host or port differs from the stored connection parameters updates
them and schedules a connectivity re-check; a matching identity with
unchanged host and port leaves the entry untouched and schedules nothing. -/
theorem c5_presence_update (entry : PEntryData) (i i' i'' : PServiceInfo)
    (a b : String) (p q : Nat)
    (hmiss : pyLower (pyStrip ((lookupProp i.props "id").getD "")) = ""
      ∨ pyLower (pyStrip ((lookupProp i.props "id").getD ""))
          ≠ pyLower (pyStrip (entry.id.getD "")))
    (hmatch : pyLower (pyStrip ((lookupProp i'.props "id").getD ""))
        = pyLower (pyStrip (entry.id.getD ""))
      ∧ pyLower (pyStrip ((lookupProp i'.props "id").getD "")) ≠ "")
    (haddr : i'.addresses = [a] ∧ a ≠ "" ∧ i'.port = some p ∧ p ≠ 0)
    (hdiff : entry.host ≠ some a ∨ entry.port ≠ some p)
    (hmatch' : pyLower (pyStrip ((lookupProp i''.props "id").getD ""))
        = pyLower (pyStrip (entry.id.getD ""))
      ∧ pyLower (pyStrip ((lookupProp i''.props "id").getD "")) ≠ "")
    (hsame : i''.addresses = [b] ∧ i''.port = some q
      ∧ entry.host = some b ∧ entry.port = some q) :
    handle_change entry SERVICE_TYPE false (some i) = (entry, false)
      ∧ handle_change entry SERVICE_TYPE false (some i')
          = ({ entry with host := some a, port := some p }, true)
      ∧ handle_change entry SERVICE_TYPE false (some i'') = (entry, false) := by
  refine ⟨?_, ?_, ?_⟩
  · simp only [handle_change]
    rw [if_neg (by simp), if_neg (by simp), if_pos hmiss]
  · obtain ⟨hid, hidne⟩ := hmatch
    obtain ⟨haddrs, hane, hport, hpne⟩ := haddr
    simp only [handle_change]
    rw [if_neg (by simp), if_neg (by simp),
      if_neg (by push_neg; exact ⟨hidne, hid⟩), haddrs, hport]
    simp only [if_pos hpne]
    rw [if_pos ⟨hane, hpne, hdiff⟩]
  · obtain ⟨hid, hidne⟩ := hmatch'
    obtain ⟨haddrs, hport, hhost, hpstored⟩ := hsame
    have hports : (if q ≠ 0 then some q else entry.port) = some q := by
      split
      · rfl
      · rw [hpstored]
    simp only [handle_change]
    simp [hid, hidne, haddrs, hport, hports, hhost, hpstored]

/-- Stored entry data for the presence scenario: watching `dev-42` at
`192.168.1.40:9123`. -/
def c5entry : PEntryData :=
  { id := some "dev-42", host := some "192.168.1.40", port := some 9123 }

/-- Discovery report declaring the wrong identity `dev-99`. -/
def c5wrong : PServiceInfo :=
  { addresses := ["192.168.1.50"], port := some 9123, props := [("id", "dev-99")] }

/-- Discovery report for `dev-42` at the new address `192.168.1.50`. -/
def c5moved : PServiceInfo :=
  { addresses := ["192.168.1.50"], port := some 9123, props := [("id", "dev-42")] }

/-- Discovery report for `dev-42` at the unchanged stored address. -/
def c5stable : PServiceInfo :=
  { addresses := ["192.168.1.40"], port := some 9123, props := [("id", "dev-42")] }

/-- C5 witness: the wrong-identity report is ignored, the moved report
updates host and schedules a re-check, the unchanged report does nothing. -/
theorem c5_presence_update_witness :
    ((pyLower (pyStrip ((lookupProp c5wrong.props "id").getD "")) = ""
        ∨ pyLower (pyStrip ((lookupProp c5wrong.props "id").getD ""))
            ≠ pyLower (pyStrip (c5entry.id.getD "")))
      ∧ (pyLower (pyStrip ((lookupProp c5moved.props "id").getD ""))
            = pyLower (pyStrip (c5entry.id.getD ""))
          ∧ pyLower (pyStrip ((lookupProp c5moved.props "id").getD "")) ≠ "")
      ∧ (c5moved.addresses = ["192.168.1.50"] ∧ "192.168.1.50" ≠ ""
          ∧ c5moved.port = some 9123 ∧ (9123 : Nat) ≠ 0)
      ∧ (c5entry.host ≠ some "192.168.1.50" ∨ c5entry.port ≠ some 9123)
      ∧ (pyLower (pyStrip ((lookupProp c5stable.props "id").getD ""))
            = pyLower (pyStrip (c5entry.id.getD ""))
          ∧ pyLower (pyStrip ((lookupProp c5stable.props "id").getD "")) ≠ "")
      ∧ (c5stable.addresses = ["192.168.1.40"] ∧ c5stable.port = some 9123
          ∧ c5entry.host = some "192.168.1.40" ∧ c5entry.port = some 9123))
    ∧ (handle_change c5entry SERVICE_TYPE false (some c5wrong) = (c5entry, false)
      ∧ handle_change c5entry SERVICE_TYPE false (some c5moved)
          = ({ c5entry with host := some "192.168.1.50", port := some 9123 }, true)
      ∧ handle_change c5entry SERVICE_TYPE false (some c5stable) = (c5entry, false)) :=
  ⟨⟨by decide, ⟨by decide, by decide⟩, by decide, by decide,
      ⟨by decide, by decide⟩, by decide⟩,
    c5_presence_update c5entry c5wrong c5moved c5stable "192.168.1.50" "192.168.1.40"
      9123 9123 (by decide) (by decide) (by decide) (by decide) (by decide) (by decide)⟩

/-! ## Pairing flow (`QuickBarsConfigFlow.async_step_pair` and
`async_step_token`, `config_flow.py` lines 65-160) -/

/-- The mutable flow state carried across the pairing wizard's steps
(`self._host`, `self._port`, `self._pair_sid`, the unique id set via
`async_set_unique_id`, and `self._paired_name`). -/
structure FlowState where
  host : String := ""
  port : Int := 0
  pair_sid : Option String := none
  unique_id : Option String := none
  paired_name : Option String := none
deriving DecidableEq

/-- The fields of the remote's `/api/pair/confirm` response that
`async_step_pair` reads: `id`, `name`, `port`, `has_token`. -/
structure ConfirmResp where
  id : Option String := none
  name : Option String := none
  port : Option Int := none
  has_token : Option Bool := none
deriving DecidableEq

/-- The possible results of submitting the pair step. -/
inductive PairOutcome
  | showPairForm (errors : List (String × String))
  | abortAlreadyConfigured
  | tokenStep (st : FlowState)
  | createEntry (title : String) (host : String) (port : Int) (id : Option String)
deriving DecidableEq

/-- Submission branch of `async_step_pair` (`config_flow.py` lines 83-109)
after `confirm_pair` returned `resp`: a falsy `id` re-shows the pair form
with error `no_unique_id`; otherwise the name, port and token flag are
decoded, `_abort_if_unique_id_configured` may abort
(`already_configured`), and the flow either proceeds to the token step
(storing port, unique id and name in the flow state) or creates the entry
directly. -/
def async_step_pair_submit (st : FlowState) (resp : ConfirmResp)
    (already_configured : Bool) : PairOutcome :=
  let qb_id := resp.id.getD ""
  if qb_id = "" then .showPairForm [("base", "no_unique_id")]
  else
    let qb_name := pyOr resp.name "QuickBars TV App"
    let qb_port : Int := match resp.port with
      | some p => if p ≠ 0 then p else st.port
      | none => st.port
    let has_token := resp.has_token.getD false
    if already_configured then .abortAlreadyConfigured
    else if has_token = false then
      .tokenStep { st with
        port := qb_port
        unique_id := some qb_id
        paired_name := some qb_name }
    else
      .createEntry qb_name st.host qb_port (some qb_id)

/-- The entry created when `async_step_token` succeeds (`config_flow.py`
lines 156-160): title from `self._paired_name` (default `QuickBars TV`),
data from `self._host`, `self._port` and `self.unique_id`. -/
def async_step_token_success (st : FlowState) : PairOutcome :=
  .createEntry (st.paired_name.getD "QuickBars TV") st.host st.port st.unique_id

/-- C4 counterexample: with a confirm-pairing response that omits the
identity, `async_step_pair` re-shows the pair form with error
`no_unique_id` — a retryable validation failure of the same step — rather
than terminally aborting the flow as the claim states. -/
theorem c4_counterexample :
    async_step_pair_submit {} {} false
        = PairOutcome.showPairForm [("base", "no_unique_id")]
      ∧ async_step_pair_submit {} {} false ≠ PairOutcome.abortAlreadyConfigured := by
  constructor <;> decide

/-- C4 (amended): a confirm-pairing response whose identity is missing or
empty makes the flow re-show the pair step with error `no_unique_id`
(without aborting); and no config entry is ever created without a stable
identity — an entry created directly by the pair step, or by the token step
the pair step dispatched to, always carries a non-empty id. -/
theorem c4_no_stable_identity (st st2 st3 : FlowState)
    (resp resp2 resp3 : ConfirmResp) (already2 already3 : Bool)
    (t hh : String) (pp : Int) (d : Option String) (st' : FlowState)
    (h1 : resp.id = none ∨ resp.id = some "")
    (h2 : async_step_pair_submit st2 resp2 already2 = PairOutcome.createEntry t hh pp d)
    (h3 : async_step_pair_submit st3 resp3 already3 = PairOutcome.tokenStep st') :
    (async_step_pair_submit st resp false
        = PairOutcome.showPairForm [("base", "no_unique_id")])
      ∧ (∃ s, d = some s ∧ s ≠ "")
      ∧ (∃ s, st'.unique_id = some s ∧ s ≠ ""
          ∧ async_step_token_success st'
              = PairOutcome.createEntry (st'.paired_name.getD "QuickBars TV")
                  st'.host st'.port (some s)) := by
  refine ⟨?_, ?_, ?_⟩
  · unfold async_step_pair_submit
    rcases h1 with h | h <;> simp [h]
  · unfold async_step_pair_submit at h2
    by_cases hid : resp2.id.getD "" = ""
    · rw [if_pos hid] at h2
      exact absurd h2 (by simp)
    · rw [if_neg hid] at h2
      by_cases hac : already2 = true
      · rw [if_pos hac] at h2
        exact absurd h2 (by simp)
      · rw [if_neg hac] at h2
        by_cases htok : resp2.has_token.getD false = false
        · rw [if_pos htok] at h2
          exact absurd h2 (by simp)
        · rw [if_neg htok] at h2
          refine ⟨resp2.id.getD "", ?_, hid⟩
          injection h2 with _ _ _ hd
          exact hd.symm
  · unfold async_step_pair_submit at h3
    by_cases hid : resp3.id.getD "" = ""
    · rw [if_pos hid] at h3
      exact absurd h3 (by simp)
    · rw [if_neg hid] at h3
      by_cases hac : already3 = true
      · rw [if_pos hac] at h3
        exact absurd h3 (by simp)
      · rw [if_neg hac] at h3
        by_cases htok : resp3.has_token.getD false = false
        · rw [if_pos htok] at h3
          injection h3 with hst
          subst hst
          exact ⟨resp3.id.getD "", rfl, hid, rfl⟩
        · rw [if_neg htok] at h3
          exact absurd h3 (by simp)

/-- Flow state after the pair step dispatched to the token step in the C4
witness scenario. -/
def c4tokenState : FlowState :=
  { port := 0, unique_id := some "dev-42", paired_name := some "QuickBars TV App" }

/-- C4 witness: a response with no id re-shows the form; a response with id
`dev-42` and a token creates an entry with that id; one without a token
goes to the token step whose success creates an entry with that id. -/
theorem c4_no_stable_identity_witness :
    ((({} : ConfirmResp).id = none ∨ ({} : ConfirmResp).id = some "")
      ∧ async_step_pair_submit {} { id := some "dev-42", has_token := some true } false
          = PairOutcome.createEntry "QuickBars TV App" "" 0 (some "dev-42")
      ∧ async_step_pair_submit {} { id := some "dev-42" } false
          = PairOutcome.tokenStep c4tokenState)
    ∧ ((async_step_pair_submit {} {} false
          = PairOutcome.showPairForm [("base", "no_unique_id")])
      ∧ (∃ s, (some "dev-42" : Option String) = some s ∧ s ≠ "")
      ∧ (∃ s, c4tokenState.unique_id = some s ∧ s ≠ ""
          ∧ async_step_token_success c4tokenState
              = PairOutcome.createEntry (c4tokenState.paired_name.getD "QuickBars TV")
                  c4tokenState.host c4tokenState.port (some s))) :=
  ⟨⟨Or.inl rfl, by decide, by decide⟩,
    c4_no_stable_identity {} {} {} {} { id := some "dev-42", has_token := some true }
      { id := some "dev-42" } false false "QuickBars TV App" "" 0 (some "dev-42")
      c4tokenState (Or.inl rfl) (by decide) (by decide)⟩

/-! ## QuickBar management (`QuickBarsOptionsFlow.async_step_qb_manage`,
`config_flow.py` lines 594-858) -/

/-- The parts of a snapshot entity record the options flow reads. -/
structure SEntity where
  id : Option String := none
  isSaved : Option Bool := none
deriving DecidableEq

/-- Python truthiness filter `e.get("isSaved") and e.get("id")` used to
select the saved entities (`config_flow.py` lines 617-618). -/
def entityOk (e : SEntity) : Bool :=
  e.isSaved.getD false && decide (e.id.getD "" ≠ "")

/-- The ids of the saved entities (`config_flow.py` line 619). -/
def savedIdsOf (entities : List SEntity) : List String :=
  (entities.filter entityOk).map (fun e => e.id.getD "")

/-- A quick-bar record as the options flow reads and writes it. -/
structure QB where
  name : Option String := none
  savedEntityIds : List String := []
  showNameInOverlay : Option Bool := none
  showTimeOnQuickBar : Option Bool := none
  haTriggerAlias : Option String := none
  autoCloseQuickBarDomains : List String := []
  backgroundColor : Option String := none
  onStateColor : Option String := none
  backgroundOpacity : Option Int := none
  customBackgroundColor : Option (List Int) := none
  customOnStateColor : Option (List Int) := none
  position : Option String := none
  useGridLayout : Option Bool := none
deriving DecidableEq

/-- The submitted form values; `none` models a key absent from
`user_input`. -/
structure UserInput where
  quickbar_name : Option String := none
  saved_entities : Option (List String) := none
  show_name_on_overlay : Option Bool := none
  show_time_on_quickbar : Option Bool := none
  ha_trigger_alias : Option String := none
  auto_close_domains : Option (List String) := none
  position : Option String := none
  use_grid_layout : Option Bool := none
  background_opacity : Option Int := none
  use_custom_bg : Option Bool := none
  bg_rgb : Option (List Int) := none
  use_custom_on_state : Option Bool := none
  on_rgb : Option (List Int) := none
deriving DecidableEq

/-- The default values of the form rebuilt after a name clash
(`config_flow.py` lines 717-756). -/
structure Redisplay where
  quickbar_name : String
  saved_entities : List String
  show_name_on_overlay : Bool
  show_time_on_quickbar : Bool
  ha_trigger_alias : String
  auto_close_domains : List String
  position : String
  use_grid_layout : Bool
  background_opacity : Int
  use_custom_bg : Bool
  bg_rgb : List Int
  use_custom_on_state : Bool
  on_rgb : List Int
deriving DecidableEq

/-- Result of submitting the quick-bar edit form: bounce back to the pick
step (empty list or invalid index), redisplay with a validation error, or
push the updated `quick_bars` sub-tree to the TV. -/
inductive QbOutcome
  | backToPick
  | nameTaken (errors : List (String × String)) (defaults : Redisplay)
  | push (quick_bars : List QB)
deriving DecidableEq

/-- The stripped, casefolded names of all sibling quick bars other than the
one at `idx` (`config_flow.py` lines 711-714). -/
def siblingNames (qb_list : List QB) (idx : Nat) : List String :=
  (qb_list.enum.filter (fun p => decide (p.1 ≠ idx))).map
    (fun p => pyLower (pyStrip (p.2.name.getD "")))

/-- The proposed name after trimming:
`(user_input.get("quickbar_name", cur_name) or "").strip()`
(`config_flow.py` line 710). -/
@[reducible] def attemptedName (qb : QB) (ui : UserInput) : String :=
  pyStrip (ui.quickbar_name.getD (qb.name.getD ""))

/-- Submission branch of `async_step_qb_manage` (`config_flow.py` lines
594-811): guard the index, normalize the selected entity ids, check the
proposed name case-insensitively against the sibling quick bars (excluding
the one being edited), and either rebuild the form with error `name_taken`
or apply the edits and push the `quick_bars` sub-tree. In the rebuilt
form's defaults the show-name toggle reads the key
`show_name_on_quickbar`, which is never present in the submitted input, so
it always falls back to the stored value. -/
def qb_manage_submit (entities : List SEntity) (qb_list : List QB) (qb_index : Nat)
    (ui : UserInput) : QbOutcome :=
  if qb_list.isEmpty then .backToPick
  else match qb_list.get? qb_index with
  | none => .backToPick
  | some qb =>
    let saved_ids := savedIdsOf entities
    let cur_name := qb.name.getD ""
    let cur_saved := qb.savedEntityIds
    let cur_show_name := qb.showNameInOverlay.getD true
    let cur_show_time := qb.showTimeOnQuickBar.getD true
    let cur_alias := qb.haTriggerAlias.getD ""
    let cur_domains := qb.autoCloseQuickBarDomains
    let cur_bg_mode := pyOr qb.backgroundColor "colorSurface"
    let cur_on_mode := pyOr qb.onStateColor "colorPrimary"
    let cur_bg_opacity := qb.backgroundOpacity.getD 90
    let cur_bg_rgb := listOr qb.customBackgroundColor [24, 24, 24]
    let cur_on_rgb := listOr qb.customOnStateColor [255, 204, 0]
    let cur_use_bg_custom := cur_bg_mode == "custom"
    let cur_use_on_custom := cur_on_mode == "custom"
    let cur_pos := pyUpper (pyOr qb.position "RIGHT")
    let cur_use_grid := qb.useGridLayout.getD false
    let requested := listOr ui.saved_entities cur_saved
    let normalized := normalizeSaved saved_ids requested []
    let new_name := pyStrip (ui.quickbar_name.getD cur_name)
    if new_name ≠ "" ∧ pyLower new_name ∈ siblingNames qb_list qb_index then
      .nameTaken [("base", "name_taken")]
        { quickbar_name := new_name
          saved_entities := normalized
          show_name_on_overlay := cur_show_name
          show_time_on_quickbar := ui.show_time_on_quickbar.getD cur_show_time
          ha_trigger_alias := ui.ha_trigger_alias.getD cur_alias
          auto_close_domains := listOr ui.auto_close_domains cur_domains
          position := pyUpper (strOr (ui.position.getD cur_pos) "RIGHT")
          use_grid_layout := ui.use_grid_layout.getD cur_use_grid
          background_opacity := ui.background_opacity.getD cur_bg_opacity
          use_custom_bg := ui.use_custom_bg.getD cur_use_bg_custom
          bg_rgb := listOr ui.bg_rgb cur_bg_rgb
          use_custom_on_state := ui.use_custom_on_state.getD cur_use_on_custom
          on_rgb := listOr ui.on_rgb cur_on_rgb }
    else
      let pos := pyUpper (strOr (ui.position.getD cur_pos) "RIGHT")
      let req_grid := ui.use_grid_layout.getD cur_use_grid
      let use_grid := req_grid && decide (pos = "LEFT" ∨ pos = "RIGHT")
      let use_bg := ui.use_custom_bg.getD cur_use_bg_custom
      let use_on := ui.use_custom_on_state.getD cur_use_on_custom
      let qb1 : QB :=
        { qb with
          name := some (strOr new_name cur_name)
          savedEntityIds := normalized
          showNameInOverlay := some (ui.show_name_on_overlay.getD cur_show_name)
          showTimeOnQuickBar := some (ui.show_time_on_quickbar.getD cur_show_time)
          haTriggerAlias := some (ui.ha_trigger_alias.getD cur_alias)
          autoCloseQuickBarDomains := listOr ui.auto_close_domains cur_domains
          position := some pos
          useGridLayout := some use_grid
          backgroundOpacity := some (ui.background_opacity.getD cur_bg_opacity)
          backgroundColor := some (if use_bg then "custom"
            else if cur_bg_mode ≠ "custom" then cur_bg_mode else "colorSurface")
          customBackgroundColor :=
            if use_bg then some (listOr ui.bg_rgb cur_bg_rgb) else none
          onStateColor := some (if use_on then "custom"
            else if cur_on_mode ≠ "custom" then cur_on_mode else "colorPrimary")
          customOnStateColor :=
            if use_on then some (listOr ui.on_rgb cur_on_rgb) else none }
      .push (qb_list.set qb_index qb1)

/-- Snapshot quick-bar list for the C6 scenario: `Kitchen`, `Living Room`,
and the bar being edited, `Den`, whose show-name toggle is on. -/
def c6list : List QB :=
  [{ name := some "Kitchen" }, { name := some "Living Room" },
    { name := some "Den", showNameInOverlay := some true }]

/-- Submitted form values for the C6 scenario: rename `Den` to `kitchen`
and switch the show-name toggle off. -/
def c6ui : UserInput :=
  { quickbar_name := some "kitchen", show_name_on_overlay := some false }

/-- The redisplay defaults the code actually produces in the C6 scenario. -/
def c6defaults : Redisplay :=
  { quickbar_name := "kitchen"
    saved_entities := []
    show_name_on_overlay := true
    show_time_on_quickbar := true
    ha_trigger_alias := ""
    auto_close_domains := []
    position := "RIGHT"
    use_grid_layout := false
    background_opacity := 90
    use_custom_bg := false
    bg_rgb := [24, 24, 24]
    use_custom_on_state := false
    on_rgb := [255, 204, 0] }

/-- C6 counterexample: renaming the third bar to `kitchen` clashes with
sibling `Kitchen`, but the validation failure is keyed `base` (code
`name_taken`), not `quickbar_name` as the claim states; and the attempted
show-name value `false` is not preserved in the redisplayed form, which
reverts to the stored `true` because the code reads the wrong input key. -/
theorem c6_counterexample :
    qb_manage_submit [] c6list 2 c6ui
        = QbOutcome.nameTaken [("base", "name_taken")] c6defaults
      ∧ "base" ≠ "quickbar_name"
      ∧ c6ui.show_name_on_overlay = some false
      ∧ c6defaults.show_name_on_overlay = true := by
  refine ⟨by decide, by decide, rfl, rfl⟩

/-- C6 (amended): a proposed name, non-empty after trimming, that equals
case-insensitively the name of a sibling quick bar other than the one being
edited makes the submission redisplay the form with the structured error
`name_taken` under the `base` key, preserving the attempted name, and the
snapshot is not pushed; a proposed name that clashes with no sibling — in
particular one equal only to the edited bar's own name — is accepted and the
`quick_bars` sub-tree is pushed. -/
theorem c6_name_uniqueness (entities : List SEntity) (qb_list : List QB)
    (i : Nat) (qb : QB) (ui : UserInput)
    (hget : qb_list.get? i = some qb)
    (hclash : attemptedName qb ui ≠ ""
      ∧ pyLower (attemptedName qb ui) ∈ siblingNames qb_list i)
    (entities2 : List SEntity) (qb_list2 : List QB)
    (i2 : Nat) (qb2 : QB) (ui2 : UserInput)
    (hget2 : qb_list2.get? i2 = some qb2)
    (hok : pyLower (attemptedName qb2 ui2) ∉ siblingNames qb_list2 i2) :
    (∃ defaults, qb_manage_submit entities qb_list i ui
        = QbOutcome.nameTaken [("base", "name_taken")] defaults
      ∧ defaults.quickbar_name = attemptedName qb ui)
    ∧ (∃ l, qb_manage_submit entities2 qb_list2 i2 ui2 = QbOutcome.push l) := by
  constructor
  · have hne : qb_list.isEmpty = false := by
      cases qb_list
      · simp at hget
      · rfl
    simp only [qb_manage_submit, hne, Bool.false_eq_true, if_false, hget]
    split
    · exact ⟨_, rfl, rfl⟩
    · next hcon => exact absurd hclash hcon
  · have hne2 : qb_list2.isEmpty = false := by
      cases qb_list2
      · simp at hget2
      · rfl
    simp only [qb_manage_submit, hne2, Bool.false_eq_true, if_false, hget2]
    split
    · next hcon => exact absurd hcon.2 hok
    · exact ⟨_, rfl⟩

/-- C6 amended-theorem witness: `kitchen` clashes with sibling `Kitchen`
when editing the third bar; renaming `Kitchen` (index 0) to its own name
clashes with nothing and pushes. -/
theorem c6_name_uniqueness_witness :
    ((c6list.get? 2 = some { name := some "Den", showNameInOverlay := some true }
        ∧ (attemptedName { name := some "Den", showNameInOverlay := some true } c6ui ≠ ""
          ∧ pyLower (attemptedName { name := some "Den", showNameInOverlay := some true } c6ui)
              ∈ siblingNames c6list 2)
        ∧ c6list.get? 0 = some { name := some "Kitchen" }
        ∧ pyLower (attemptedName { name := some "Kitchen" }
              { quickbar_name := some "Kitchen" })
            ∉ siblingNames c6list 0))
    ∧ ((∃ defaults, qb_manage_submit [] c6list 2 c6ui
          = QbOutcome.nameTaken [("base", "name_taken")] defaults
        ∧ defaults.quickbar_name
            = attemptedName { name := some "Den", showNameInOverlay := some true } c6ui)
      ∧ (∃ l, qb_manage_submit [] c6list 0 { quickbar_name := some "Kitchen" }
          = QbOutcome.push l)) :=
  ⟨⟨by decide, ⟨by decide, by decide⟩, by decide, by decide⟩,
    c6_name_uniqueness [] c6list 2 { name := some "Den", showNameInOverlay := some true }
      c6ui (by decide) ⟨by decide, by decide⟩ [] c6list 0 { name := some "Kitchen" }
      { quickbar_name := some "Kitchen" } (by decide) (by decide)⟩

end QuickBars
